import Mathlib

/-
Verification of the measurement-and-aggregation pipeline of scripts/measure.py
(oavif benchmarking harness).

The script is embedded shallowly:
  - parse_oavif_output  : the regex search re.search(r"(\d+)\s+passes?", s, IGNORECASE)
                          is embedded as a leftmost scan over the character list;
  - process_image       : the per-file metric builder; the subprocess invocation is an
                          explicit input (success / non-zero exit / launch failure);
                          a launch failure is an uncaught exception, modelled as
                          Except.error (only subprocess.CalledProcessError is caught);
  - the aggregation code of main : totals, ratios, geometric mean, throughput and
                          dispersion statistics over the list of per-file metrics;
  - the configuration checks of main : early sys.exit(1) paths.

Python floats are modelled exactly: rationals for sizes/times/percentages, reals where
roots appear (geometric mean, standard deviation).
-/

/-! ## Diagnostic parser: parse_oavif_output -/

/-- Digits of a decimal numeral, most significant first, to the number they denote
(the int() conversion of the captured group). -/
def digitsToNat (ds : List Char) : Nat :=
  ds.foldl (fun acc c => 10 * acc + (c.toNat - ('0').toNat)) 0

/-- The character class matched by the regex token backslash-s on ASCII text. -/
def isPySpace (c : Char) : Bool :=
  c = ' ' || c = '\t' || c = '\n' || c = '\r' || c = '\x0b' || c = '\x0c'

/-- The literal tail of the regex: the letters p, a, s, s, e (case-insensitive) must
follow; the final optional s does not affect whether a match exists. -/
def matchesPasse (cs : List Char) : Bool :=
  match cs with
  | a :: b :: c :: d :: e :: _ =>
      a.toLower == 'p' && b.toLower == 'a' && c.toLower == 's'
        && d.toLower == 's' && e.toLower == 'e'
  | _ => false

/-- Try to match the pattern at the head of the text: one or more digits, then one or
more whitespace characters, then the literal tail.  Returns the captured integer. -/
def matchPassAt (cs : List Char) : Option Nat :=
  let p := cs.span (fun c => c.isDigit)
  if p.1.isEmpty then none
  else
    let q := p.2.span isPySpace
    if q.1.isEmpty then none
    else if matchesPasse q.2 then some (digitsToNat p.1) else none

/-- Leftmost search, as re.search does: try every start position left to right. -/
def searchPasses : List Char → Option Nat
  | [] => none
  | c :: cs =>
      match matchPassAt (c :: cs) with
      | some n => some n
      | none => searchPasses cs

/-- Embeds parse_oavif_output: re.search of the pattern over the stderr text,
returning the first captured integer, or None when there is no match. -/
def parse_oavif_output (stderr_output : String) : Option Nat :=
  searchPasses stderr_output.data

/-! ## Per-file metric builder: process_image -/

/-- The outcome of the subprocess.run call inside process_image, made an explicit
input of the embedding.  check=True turns a non-zero exit into a CalledProcessError;
a failure to launch the binary raises an OSError instead (not a CalledProcessError). -/
inductive InvocationResult where
  | success (elapsed_ms : ℚ) (stderr0 : String)
  | nonzeroExit (elapsed_ms : ℚ) (stderr0 : String) (exc : String)
  | launchFailure (msg : String)
deriving DecidableEq

/-- The status tag of a per-file metric. -/
inductive Status where
  | ok
  | noOutput
  | error
deriving DecidableEq

/-- One per-file metric record, the dict returned by process_image. -/
structure FileMetric where
  image : String
  encoding_time_ms : Option ℚ
  passes : Option Nat
  orig_bytes : Nat
  final_bytes : Option Nat
  savings_bytes : Option Int
  savings_pct : Option ℚ
  status : Status
  error : Option String
  stderr : String
deriving DecidableEq

/-- The inputs of one process_image call that the file system and the subprocess
supply: the image name and path, its size, the invocation outcome, and the size of
the output file if one exists at the expected path afterwards. -/
structure ImageCase where
  image_name : String
  image_path : String
  orig_bytes : Nat
  inv : InvocationResult
  outputSize : Option Nat
deriving DecidableEq

/-- Python str.strip: remove leading and trailing whitespace. -/
def stripStr (s : String) : String :=
  String.mk (((s.data.dropWhile isPySpace).reverse.dropWhile isPySpace).reverse)

/-- The savings computation of process_image: absent when final_bytes is None or
orig_bytes == 0, otherwise savings_bytes = max(orig - final, 0) and
savings_pct = (savings_bytes / orig_bytes) * 100.0. -/
def savingsOf (orig : Nat) (final_bytes : Option Nat) : Option Int × Option ℚ :=
  match final_bytes with
  | none => (none, none)
  | some fb =>
      if orig = 0 then (none, none)
      else
        (some (max ((orig : Int) - (fb : Int)) 0),
         some (((max ((orig : Int) - (fb : Int)) 0 : Int) : ℚ) / (orig : ℚ) * 100))

/-- Embeds process_image.  The try block catches only CalledProcessError, so a
launch failure propagates out of the function (Except.error); the other two
invocation outcomes produce a metric record exactly as the two branches of the
Python function do. -/
def process_image (c : ImageCase) : Except String FileMetric :=
  match c.inv with
  | InvocationResult.launchFailure msg => Except.error msg
  | InvocationResult.nonzeroExit _ stderr0 exc =>
      Except.ok
        { image := c.image_name
          encoding_time_ms := none
          passes := none
          orig_bytes := c.orig_bytes
          final_bytes := none
          savings_bytes := none
          savings_pct := none
          status := Status.error
          error := some ("Error processing " ++ c.image_path ++ ": " ++ exc)
          stderr := stripStr stderr0 }
  | InvocationResult.success elapsed stderr0 =>
      Except.ok
        { image := c.image_name
          encoding_time_ms := some elapsed
          passes := parse_oavif_output stderr0
          orig_bytes := c.orig_bytes
          final_bytes := c.outputSize
          savings_bytes := (savingsOf c.orig_bytes c.outputSize).1
          savings_pct := (savingsOf c.orig_bytes c.outputSize).2
          status := if (c.outputSize).isSome then Status.ok else Status.noOutput
          error := none
          stderr := stripStr stderr0 }

/-- True exactly on the invocation outcomes the except branch of process_image
handles: a CalledProcessError from a non-zero exit. -/
def invFailed : InvocationResult → Bool
  | InvocationResult.nonzeroExit _ _ _ => true
  | _ => false

/-- True exactly on a zero-exit invocation. -/
def invSucceeded : InvocationResult → Bool
  | InvocationResult.success _ _ => true
  | _ => false

/-! ## Claim C3 -/

/-- Claim C3 (code bug): the docstring of parse_oavif_output promises that lines
like a digit followed by the word pass are accepted, but the regex tail written
as p-a-s-s-e-s-question-mark requires the letter e, so the text consisting of the
digit 1, a space, and the word pass yields no match and the function returns None,
while a text with the word passes is parsed as documented. -/
theorem C3_parse_pass_bug :
    parse_oavif_output "1 pass" = none
      ∧ parse_oavif_output "done" = none
      ∧ parse_oavif_output "encoded in 2 passes" = some 2
      ∧ parse_oavif_output "1 passed" = some 1 := by
  decide

/-! ## Claims C1 and C2 -/

/-- The property of claim C1, at one producible metric: the three status values
are mutually exclusive and exhaustive, characterised by the invocation outcome and
the existence of the output file, and status ok holds iff final_bytes is present. -/
def C1Prop (c : ImageCase) (m : FileMetric) : Prop :=
  (m.status = Status.error ↔ invFailed c.inv = true)
    ∧ (m.status = Status.noOutput
        ↔ (invSucceeded c.inv = true ∧ c.outputSize = none))
    ∧ (m.status = Status.ok
        ↔ (invSucceeded c.inv = true ∧ c.outputSize.isSome = true))
    ∧ (m.status = Status.ok ↔ m.final_bytes.isSome = true)
    ∧ (m.status = Status.ok ∨ m.status = Status.noOutput ∨ m.status = Status.error)

/-- Claim C1: every metric record produced by process_image has status error iff
the invocation failed (a caught CalledProcessError), status no-output iff the
invocation succeeded and no output file exists at the expected path, status ok
otherwise; and status is ok iff final_bytes is present. -/
theorem C1_status_trichotomy (c : ImageCase) (m : FileMetric)
    (h : process_image c = Except.ok m) : C1Prop c m := by
  cases hinv : c.inv with
  | launchFailure msg =>
      rw [process_image, hinv] at h
      exact absurd h (by simp)
  | nonzeroExit e s0 ex =>
      rw [process_image, hinv] at h
      rw [Except.ok.injEq] at h
      subst h
      simp [C1Prop, invFailed, invSucceeded, hinv]
  | success e s0 =>
      rw [process_image, hinv] at h
      rw [Except.ok.injEq] at h
      subst h
      cases hout : c.outputSize with
      | none => simp [C1Prop, invFailed, invSucceeded, hinv, hout]
      | some fb => simp [C1Prop, invFailed, invSucceeded, hinv, hout]

/-- A concrete successful invocation whose output file is missing. -/
def caseNoOut : ImageCase :=
  { image_name := "a.png"
    image_path := "imgs/a.png"
    orig_bytes := 1000
    inv := InvocationResult.success 5 ""
    outputSize := none }

/-- The metric process_image builds for caseNoOut. -/
def metricNoOut : FileMetric :=
  { image := "a.png"
    encoding_time_ms := some 5
    passes := none
    orig_bytes := 1000
    final_bytes := none
    savings_bytes := none
    savings_pct := none
    status := Status.noOutput
    error := none
    stderr := "" }

/-- Witness for claim C1 at a concrete input. -/
theorem C1_status_trichotomy_witness :
    process_image caseNoOut = Except.ok metricNoOut ∧ C1Prop caseNoOut metricNoOut :=
  ⟨rfl, C1_status_trichotomy caseNoOut metricNoOut rfl⟩

/-- The property of claim C2, at one producible metric: with status ok and a
positive original size, final_bytes is present and the savings fields carry
max(orig - final, 0) and 100 * savings / orig; with a zero original size or an
absent final size both savings fields are absent. -/
def C2Prop (m : FileMetric) : Prop :=
  ((m.status = Status.ok ∧ 0 < m.orig_bytes) →
      m.final_bytes.isSome = true
        ∧ m.savings_bytes
            = some (max ((m.orig_bytes : Int) - ((m.final_bytes.getD 0 : Nat) : Int)) 0)
        ∧ m.savings_pct
            = some (100 * ((m.savings_bytes.getD 0 : Int) : ℚ) / (m.orig_bytes : ℚ)))
    ∧ ((m.orig_bytes = 0 ∨ m.final_bytes = none) →
        m.savings_bytes = none ∧ m.savings_pct = none)

/-- Claim C2: in every metric record produced by process_image with status ok and
positive original size, final_bytes is present, savings_bytes is
max(original_bytes - final_bytes, 0) and savings_pct is
100 * savings_bytes / original_bytes; when the original size is zero or
final_bytes is absent, both savings fields are absent. -/
theorem C2_savings_fields (c : ImageCase) (m : FileMetric)
    (h : process_image c = Except.ok m) : C2Prop m := by
  cases hinv : c.inv with
  | launchFailure msg =>
      rw [process_image, hinv] at h
      exact absurd h (by simp)
  | nonzeroExit e s0 ex =>
      rw [process_image, hinv] at h
      rw [Except.ok.injEq] at h
      subst h
      simp [C2Prop]
  | success e s0 =>
      rw [process_image, hinv] at h
      rw [Except.ok.injEq] at h
      subst h
      cases hout : c.outputSize with
      | none => simp [C2Prop, savingsOf]
      | some fb =>
          rcases Nat.eq_zero_or_pos c.orig_bytes with hz | hpos
          · simp [C2Prop, savingsOf, hz]
          · constructor
            · intro _
              refine ⟨by simp, by simp [savingsOf, Nat.pos_iff_ne_zero.mp hpos], ?_⟩
              simp only [savingsOf, Nat.pos_iff_ne_zero.mp hpos, if_false,
                Option.getD_some]
              rw [Option.some.injEq]
              ring
            · rintro (hz | hnone)
              · exact absurd hz (Nat.pos_iff_ne_zero.mp hpos)
              · simp at hnone

/-- A concrete successful invocation with a 400-byte output for a 1000-byte image. -/
def caseOk1000 : ImageCase :=
  { image_name := "b.png"
    image_path := "imgs/b.png"
    orig_bytes := 1000
    inv := InvocationResult.success 7 ""
    outputSize := some 400 }

/-- The metric process_image builds for caseOk1000. -/
def metricOk1000 : FileMetric :=
  { image := "b.png"
    encoding_time_ms := some 7
    passes := none
    orig_bytes := 1000
    final_bytes := some 400
    savings_bytes := (savingsOf 1000 (some 400)).1
    savings_pct := (savingsOf 1000 (some 400)).2
    status := Status.ok
    error := none
    stderr := "" }

/-- Witness for claim C2 at a concrete input, together with the evaluated savings
fields: 600 bytes saved, 60 percent. -/
theorem C2_savings_fields_witness :
    process_image caseOk1000 = Except.ok metricOk1000
      ∧ C2Prop metricOk1000
      ∧ metricOk1000.savings_bytes = some 600
      ∧ metricOk1000.savings_pct = some 60 := by
  refine ⟨rfl, C2_savings_fields caseOk1000 metricOk1000 rfl, ?_, ?_⟩
  · simp [metricOk1000, savingsOf]
  · simp [metricOk1000, savingsOf]
    norm_num

/-! ## Run aggregator: the statistics block of main -/

/-- The ok sublist: the records whose status is ok, in order. -/
def okOf (ms : List FileMetric) : List FileMetric :=
  ms.filter (fun m => m.status == Status.ok)

/-- original_total_bytes: the sum of orig_bytes over the ok records. -/
def orig_total (ms : List FileMetric) : Nat :=
  ((okOf ms).map (fun m => m.orig_bytes)).sum

/-- final_total_bytes: the sum of the present final_bytes over the ok records. -/
def final_total (ms : List FileMetric) : Nat :=
  ((okOf ms).filterMap (fun m => m.final_bytes)).sum

/-- savings_total_bytes: max(orig_total - final_total, 0) when the ok list is
non-empty, else 0. -/
def savings_total (ms : List FileMetric) : Int :=
  if (okOf ms).isEmpty then 0
  else max ((orig_total ms : Int) - (final_total ms : Int)) 0

/-- Only the status field decides membership in the ok sublist, so a record whose
status is not ok leaves it unchanged when appended. -/
theorem okOf_append_non_ok (ms : List FileMetric) (m : FileMetric)
    (h : ¬ m.status = Status.ok) : okOf (ms ++ [m]) = okOf ms := by
  have hb : (m.status == Status.ok) = false := by
    exact beq_eq_false_iff_ne.mpr h
  simp [okOf, List.filter_append, List.filter, hb]

/-- Claim C4: the three byte totals are computed only over the ok records;
appending a record with status error or no-output changes none of them. -/
theorem C4_totals_only_ok (ms : List FileMetric) (m : FileMetric)
    (h : m.status = Status.error ∨ m.status = Status.noOutput) :
    orig_total (ms ++ [m]) = orig_total ms
      ∧ final_total (ms ++ [m]) = final_total ms
      ∧ savings_total (ms ++ [m]) = savings_total ms := by
  have hok : ¬ m.status = Status.ok := by
    rcases h with h | h <;> simp [h]
  have hA := okOf_append_non_ok ms m hok
  refine ⟨?_, ?_, ?_⟩
  · simp [orig_total, hA]
  · simp [final_total, hA]
  · simp [savings_total, orig_total, final_total, hA]

/-- A concrete failed-invocation metric record. -/
def metricErr : FileMetric :=
  { image := "c.png"
    encoding_time_ms := none
    passes := none
    orig_bytes := 500
    final_bytes := none
    savings_bytes := none
    savings_pct := none
    status := Status.error
    error := some "Error processing imgs/c.png: exit status 1"
    stderr := "" }

/-- Witness for claim C4: appending a concrete error record to a concrete
one-element ok list leaves the three totals unchanged. -/
theorem C4_totals_only_ok_witness :
    (metricErr.status = Status.error ∨ metricErr.status = Status.noOutput)
      ∧ orig_total ([metricOk1000] ++ [metricErr]) = orig_total [metricOk1000]
      ∧ final_total ([metricOk1000] ++ [metricErr]) = final_total [metricOk1000]
      ∧ savings_total ([metricOk1000] ++ [metricErr]) = savings_total [metricOk1000] :=
  ⟨Or.inl rfl, C4_totals_only_ok [metricOk1000] metricErr (Or.inl rfl)⟩

/-! ## Throughput: the three per-second figures of main -/

/-- images_per_sec: len(ok) / wall_elapsed_s, guarded to 0 for a non-positive wall
time. -/
def img_throughput (ms : List FileMetric) (wall : ℚ) : ℚ :=
  if 0 < wall then ((okOf ms).length : ℚ) / wall else 0

/-- input_bytes_per_sec: orig_total / wall_elapsed_s, same guard. -/
def byte_in_throughput (ms : List FileMetric) (wall : ℚ) : ℚ :=
  if 0 < wall then (orig_total ms : ℚ) / wall else 0

/-- output_bytes_per_sec: final_total / wall_elapsed_s, same guard. -/
def byte_out_throughput (ms : List FileMetric) (wall : ℚ) : ℚ :=
  if 0 < wall then (final_total ms : ℚ) / wall else 0

/-- Claim C8: with a positive wall time each throughput figure is the run-total
quantity divided by the wall time, and five ok images over ten seconds give one
half image per second. -/
theorem C8_throughput (ms : List FileMetric) (wall : ℚ) (hw : 0 < wall) :
    (img_throughput ms wall = ((okOf ms).length : ℚ) / wall
        ∧ byte_in_throughput ms wall = (orig_total ms : ℚ) / wall
        ∧ byte_out_throughput ms wall = (final_total ms : ℚ) / wall)
      ∧ ((okOf ms).length = 5 → wall = 10 → img_throughput ms wall = 0.5) := by
  refine ⟨⟨if_pos hw, if_pos hw, if_pos hw⟩, ?_⟩
  intro h5 h10
  rw [img_throughput, if_pos hw, h5, h10]
  norm_num

/-- Five copies of a concrete ok record. -/
def fiveOk : List FileMetric := List.replicate 5 metricOk1000

/-- Witness for claim C8: the concrete five-image, ten-second run has throughput
one half image per second. -/
theorem C8_throughput_witness :
    (0 : ℚ) < 10 ∧ (okOf fiveOk).length = 5 ∧ img_throughput fiveOk 10 = 0.5 := by
  refine ⟨by norm_num, by decide, ?_⟩
  exact (C8_throughput fiveOk 10 (by norm_num)).2 (by decide) rfl

/-! ## Dispersion: avg, median, stddev over ok-and-defined samples -/

/-- Insert into a sorted list, keeping an earlier-inserted equal element first, as
the stable Python sorted does. -/
def insertLe {α : Type} (le : α → α → Bool) (x : α) : List α → List α
  | [] => [x]
  | y :: ys => if le x y then x :: y :: ys else y :: insertLe le x ys

/-- Stable ascending sort by the given order, as the Python builtin sorted. -/
def sortLe {α : Type} (le : α → α → Bool) (l : List α) : List α :=
  l.foldr (insertLe le) []

/-- The arithmetic mean sum(l) / len(l). -/
def listMean (l : List ℚ) : ℚ := l.sum / (l.length : ℚ)

/-- statistics.median: the middle of the sorted data for odd length, the average of
the two middle values for even length. -/
def medianQ (l : List ℚ) : ℚ :=
  let s := sortLe (fun a b => decide (a ≤ b)) l
  if l.length % 2 = 1 then s.getD (l.length / 2) 0
  else (s.getD (l.length / 2 - 1) 0 + s.getD (l.length / 2) 0) / 2

/-- The sample variance with Bessel correction, the square of statistics.stdev. -/
def sampleVariance (l : List ℚ) : ℚ :=
  ((l.map (fun x => (x - listMean l) ^ 2)).sum) / ((l.length : ℚ) - 1)

/-- The guarded average of main: sum / len when the sample list is non-empty,
else 0. -/
def avgOf (l : List ℚ) : ℚ := if l.isEmpty then 0 else listMean l

/-- The guarded median of main: statistics.median when non-empty, else 0. -/
def medOf (l : List ℚ) : ℚ := if l.isEmpty then 0 else medianQ l

/-- The guarded standard deviation of main: statistics.stdev when at least two
samples exist, else 0. -/
noncomputable def stdOf (l : List ℚ) : ℝ :=
  if 1 < l.length then Real.sqrt ((sampleVariance l : ℚ) : ℝ) else 0

/-- encoding_times: the defined encoding times of the ok records. -/
def encoding_times (ms : List FileMetric) : List ℚ :=
  (okOf ms).filterMap (fun m => m.encoding_time_ms)

/-- passes_list: the defined pass counts of the ok records. -/
def passes_list (ms : List FileMetric) : List Nat :=
  (okOf ms).filterMap (fun m => m.passes)

/-- The pass counts as rationals, as the int samples enter float statistics. -/
def passesQ (ms : List FileMetric) : List ℚ :=
  List.map (fun (n : Nat) => (n : ℚ)) (passes_list ms)

/-- avg_encoding_time of main. -/
def avg_encoding_time (ms : List FileMetric) : ℚ := avgOf (encoding_times ms)

/-- median_encoding_time of main. -/
def median_encoding_time (ms : List FileMetric) : ℚ := medOf (encoding_times ms)

/-- encoding_time_stddev of main. -/
noncomputable def encoding_time_stddev (ms : List FileMetric) : ℝ :=
  stdOf (encoding_times ms)

/-- avg_passes of main. -/
def avg_passes (ms : List FileMetric) : ℚ := avgOf (passesQ ms)

/-- passes_stddev of main. -/
noncomputable def passes_stddev (ms : List FileMetric) : ℝ := stdOf (passesQ ms)

/-- max_passes of main: max(passes_list) if passes_list else 0. -/
def max_passes (ms : List FileMetric) : Nat :=
  if (passes_list ms).isEmpty then 0 else ((passes_list ms).max?).getD 0

/-- min_passes of main: min(passes_list) if passes_list else 0. -/
def min_passes (ms : List FileMetric) : Nat :=
  if (passes_list ms).isEmpty then 0 else ((passes_list ms).min?).getD 0

/-- A record with an undefined encoding time contributes no sample, whatever its
status. -/
theorem encoding_times_append_none (ms : List FileMetric) (m : FileMetric)
    (h : m.encoding_time_ms = none) :
    encoding_times (ms ++ [m]) = encoding_times ms := by
  by_cases hs : m.status = Status.ok
  · have hb : (m.status == Status.ok) = true := beq_iff_eq.mpr hs
    simp [encoding_times, okOf, List.filter_append, List.filter, hb, h]
  · rw [encoding_times, okOf_append_non_ok ms m hs, encoding_times]

/-- A record with an undefined pass count contributes no sample, whatever its
status. -/
theorem passes_list_append_none (ms : List FileMetric) (m : FileMetric)
    (h : m.passes = none) :
    passes_list (ms ++ [m]) = passes_list ms := by
  by_cases hs : m.status = Status.ok
  · have hb : (m.status == Status.ok) = true := beq_iff_eq.mpr hs
    simp [passes_list, okOf, List.filter_append, List.filter, hb, h]
  · rw [passes_list, okOf_append_non_ok ms m hs, passes_list]

/-- An ok record carrying a given pass count. -/
def passMetric (n : Nat) : FileMetric :=
  { image := "p.png"
    encoding_time_ms := some 3
    passes := some n
    orig_bytes := 2
    final_bytes := some 1
    savings_bytes := some 1
    savings_pct := some 50
    status := Status.ok
    error := none
    stderr := "" }

/-- A run whose defined pass counts are 1, 2 and 9. -/
def passSample : List FileMetric := [passMetric 1, passMetric 2, passMetric 9]

/-- Counterexample to claim C7 as stated: the claim speaks of a median of
passes, but the aggregation block of main computes exactly avg, stddev, max and
min for passes and its sole statistics.median call is over encoding times.  At a
concrete run whose defined pass counts are 1, 2 and 9, the median of the
defined passes would be 2, yet none of the pass statistics the code computes
equals 2: no median of passes exists. -/
theorem C7_no_passes_median :
    medOf (passesQ passSample) = 2
      ∧ avg_passes passSample ≠ 2
      ∧ passes_stddev passSample ≠ 2
      ∧ max_passes passSample ≠ 2
      ∧ min_passes passSample ≠ 2 := by
  have hq : passesQ passSample = [1, 2, 9] := by
    simp [passesQ, passes_list, okOf, passSample, passMetric]
  refine ⟨?_, ?_, ?_, by decide, by decide⟩
  · rw [hq]
    norm_num [medOf, medianQ, sortLe, insertLe, decide_eq_true_eq]
  · rw [avg_passes, hq]
    norm_num [avgOf, listMean]
  · rw [passes_stddev, hq]
    have hvar : sampleVariance [1, 2, 9] = 19 := by
      norm_num [sampleVariance, listMean]
    rw [stdOf, if_pos (by norm_num), hvar]
    intro h
    have h19 : ((19 : ℚ) : ℝ) = (19 : ℝ) := by norm_num
    rw [h19] at h
    have hs : Real.sqrt 19 ^ 2 = (19 : ℝ) := Real.sq_sqrt (by norm_num)
    rw [h] at hs
    norm_num at hs

/-- Claim C7 as amended: the timing statistics (avg, median, stddev) and the
pass statistics the code actually computes (avg, stddev, max, min — there is no
median of passes) are computed only over records where the value is defined
(appending a record with an undefined value changes none of them), and each
standard deviation is 0 whenever fewer than two samples exist. -/
theorem C7_defined_sample_stats :
    (∀ ms m, m.encoding_time_ms = none →
        avg_encoding_time (ms ++ [m]) = avg_encoding_time ms
          ∧ median_encoding_time (ms ++ [m]) = median_encoding_time ms
          ∧ encoding_time_stddev (ms ++ [m]) = encoding_time_stddev ms)
      ∧ (∀ ms m, m.passes = none →
          avg_passes (ms ++ [m]) = avg_passes ms
            ∧ passes_stddev (ms ++ [m]) = passes_stddev ms
            ∧ max_passes (ms ++ [m]) = max_passes ms
            ∧ min_passes (ms ++ [m]) = min_passes ms)
      ∧ (∀ ms, (encoding_times ms).length < 2 → encoding_time_stddev ms = 0)
      ∧ (∀ ms, (passes_list ms).length < 2 → passes_stddev ms = 0) := by
  refine ⟨?_, ?_, ?_, ?_⟩
  · intro ms m h
    have key := encoding_times_append_none ms m h
    exact ⟨by rw [avg_encoding_time, key, avg_encoding_time],
           by rw [median_encoding_time, key, median_encoding_time],
           by rw [encoding_time_stddev, key, encoding_time_stddev]⟩
  · intro ms m h
    have keyl := passes_list_append_none ms m h
    have key : passesQ (ms ++ [m]) = passesQ ms := by
      simp only [passesQ, keyl]
    exact ⟨by simp only [avg_passes, key], by simp only [passes_stddev, key],
           by simp only [max_passes, keyl], by simp only [min_passes, keyl]⟩
  · intro ms h
    rw [encoding_time_stddev, stdOf, if_neg (by omega)]
  · intro ms h
    have hlen : ¬ 1 < (passesQ ms).length := by
      simp only [passesQ, List.length_map]
      omega
    rw [passes_stddev, stdOf, if_neg hlen]

/-- Witness for the amended claim C7: appending the concrete error record
(undefined time and passes) to a concrete list changes no statistic, and the
one-sample standard deviations are 0. -/
theorem C7_defined_sample_stats_witness :
    metricErr.encoding_time_ms = none
      ∧ avg_encoding_time ([metricOk1000] ++ [metricErr])
          = avg_encoding_time [metricOk1000]
      ∧ metricErr.passes = none
      ∧ max_passes ([metricOk1000] ++ [metricErr]) = max_passes [metricOk1000]
      ∧ (encoding_times [metricOk1000]).length < 2
      ∧ encoding_time_stddev [metricOk1000] = 0 :=
  ⟨rfl, (C7_defined_sample_stats.1 [metricOk1000] metricErr rfl).1,
    rfl, (C7_defined_sample_stats.2.1 [metricOk1000] metricErr rfl).2.2.1,
    by decide, C7_defined_sample_stats.2.2.1 [metricOk1000] (by decide)⟩

/-! ## Geometric mean of compression ratios -/

/-- The ratio list of main: final_bytes / orig_bytes over the ok records with a
present final size and a positive original size. -/
noncomputable def ratiosOf (ms : List FileMetric) : List ℝ :=
  (okOf ms).filterMap (fun m =>
    match m.final_bytes with
    | none => none
    | some fb =>
        if 0 < m.orig_bytes then some ((fb : ℝ) / (m.orig_bytes : ℝ)) else none)

section
open Classical

/-- Embeds statistics.geometric_mean, which raises (a ValueError subclass) on an
empty dataset or one containing a zero or negative value, and otherwise returns
the n-th root of the product of the data. -/
noncomputable def geometric_mean (l : List ℝ) : Except Unit ℝ :=
  if l = [] ∨ ∃ x ∈ l, x ≤ 0 then Except.error ()
  else Except.ok (l.prod ^ ((l.length : ℝ))⁻¹)

/-- Embeds safe_geomean of main: None on an empty ratio list, and a caught
ValueError also becomes None. -/
noncomputable def safe_geomean (ratios : List ℝ) : Option ℝ :=
  if ratios = [] then none
  else
    match geometric_mean ratios with
    | Except.error _ => none
    | Except.ok g => some g

/-- geomean_savings_pct of main: (1 - geomean_ratio) * 100.0 when the geometric
mean is defined, else None. -/
noncomputable def geomean_savings_pct (ms : List FileMetric) : Option ℝ :=
  match safe_geomean (ratiosOf ms) with
  | none => none
  | some g => some ((1 - g) * 100)

end

/-- On a non-empty list of positive ratios, safe_geomean is the n-th root of the
product. -/
theorem safe_geomean_pos (l : List ℝ) (hne : l ≠ []) (hpos : ∀ x ∈ l, 0 < x) :
    safe_geomean l = some (l.prod ^ ((l.length : ℝ))⁻¹) := by
  have hcond : ¬ (l = [] ∨ ∃ x ∈ l, x ≤ 0) := by
    push_neg
    exact ⟨hne, hpos⟩
  rw [safe_geomean, if_neg hne, geometric_mean, if_neg hcond]

/-- The ok record list of three files that each compress to half their size. -/
def halfMetric : FileMetric :=
  { image := "h.png"
    encoding_time_ms := some 3
    passes := none
    orig_bytes := 2
    final_bytes := some 1
    savings_bytes := some 1
    savings_pct := some 50
    status := Status.ok
    error := none
    stderr := "" }

/-- Three files, each with compression ratio one half. -/
def threeHalves : List FileMetric := [halfMetric, halfMetric, halfMetric]

/-- Claim C5: geomean_savings_pct is 100 times one minus the geometric mean of
the per-file ratios; it is absent for an empty ok set; and three files of ratio
one half give exactly 50. -/
theorem C5_geomean_savings :
    (∀ ms : List FileMetric, okOf ms = [] → geomean_savings_pct ms = none)
      ∧ (∀ ms : List FileMetric, ratiosOf ms ≠ [] → (∀ r ∈ ratiosOf ms, 0 < r) →
          geomean_savings_pct ms
            = some (100 * (1 - (ratiosOf ms).prod ^ (((ratiosOf ms).length : ℝ))⁻¹)))
      ∧ geomean_savings_pct threeHalves = some 50 := by
  refine ⟨?_, ?_, ?_⟩
  · intro ms h
    have hr : ratiosOf ms = [] := by
      simp [ratiosOf, h]
    rw [geomean_savings_pct, hr, safe_geomean, if_pos rfl]
  · intro ms hne hpos
    rw [geomean_savings_pct, safe_geomean_pos (ratiosOf ms) hne hpos,
      Option.some.injEq]
    ring
  · have hr : ratiosOf threeHalves = [(1 : ℝ)/2, (1 : ℝ)/2, (1 : ℝ)/2] := by
      simp [ratiosOf, okOf, threeHalves, halfMetric, List.filter, List.filterMap]
    have hpos : ∀ x ∈ [(1 : ℝ)/2, (1 : ℝ)/2, (1 : ℝ)/2], 0 < x := by
      intro x hx
      simp only [List.mem_cons, List.not_mem_nil, or_false] at hx
      rcases hx with h | h | h <;> rw [h] <;> norm_num
    have hroot : ((1 : ℝ)/8) ^ ((3 : ℝ))⁻¹ = 1/2 := by
      have h8 : ((1 : ℝ)/8) = ((1 : ℝ)/2) ^ ((3 : ℕ) : ℝ) := by
        rw [Real.rpow_natCast]
        norm_num
      rw [h8, ← Real.rpow_mul (by norm_num)]
      norm_num
    rw [geomean_savings_pct, hr,
      safe_geomean_pos _ (by simp) hpos, Option.some.injEq]
    have hprod : ([(1 : ℝ)/2, (1 : ℝ)/2, (1 : ℝ)/2].prod) = (1 : ℝ)/8 := by
      norm_num
    have hlen : ((([(1 : ℝ)/2, (1 : ℝ)/2, (1 : ℝ)/2].length) : ℝ)) = (3 : ℝ) := by
      norm_num
    rw [hprod, hlen, hroot]
    norm_num

/-- Witness for claim C5: the empty run has an absent geometric-mean savings. -/
theorem C5_geomean_savings_witness :
    okOf [] = [] ∧ geomean_savings_pct [] = none :=
  ⟨rfl, C5_geomean_savings.1 [] rfl⟩

/-- The per-image loop of main: call process_image on each image in order,
appending each returned metric to the results list; an uncaught exception
propagates and aborts the loop.  The second component counts how many encoder
invocations were attempted. -/
def runAllC : List ImageCase → Except String (List FileMetric) × Nat
  | [] => (Except.ok [], 0)
  | c :: cs =>
      match process_image c with
      | Except.error e => (Except.error e, 1)
      | Except.ok m =>
          let r := runAllC cs
          (Except.map (fun l => m :: l) r.1, r.2 + 1)

/-- The metric record the except branch of process_image builds for a non-zero
exit. -/
def errMetricOf (name path : String) (orig : Nat) (stderr0 exc : String) :
    FileMetric :=
  { image := name
    encoding_time_ms := none
    passes := none
    orig_bytes := orig
    final_bytes := none
    savings_bytes := none
    savings_pct := none
    status := Status.error
    error := some ("Error processing " ++ path ++ ": " ++ exc)
    stderr := stripStr stderr0 }

/-- A concrete launch failure: the oavif binary cannot be executed. -/
def caseLaunchFail : ImageCase :=
  { image_name := "d.png"
    image_path := "imgs/d.png"
    orig_bytes := 800
    inv := InvocationResult.launchFailure "No such file or directory"
    outputSize := none }

/-- Counterexample to claim C6 as stated: on a launch failure process_image
raises instead of returning a metric, so the run with a second pending image
aborts after one attempted invocation, with no metric recorded for either
image; no record with status error and no continuation exists. -/
theorem C6_counterexample :
    process_image caseLaunchFail = Except.error "No such file or directory"
      ∧ runAllC [caseLaunchFail, caseOk1000]
          = (Except.error "No such file or directory", 1) :=
  ⟨rfl, rfl⟩

/-- Claim C6 as amended: for a non-zero exit of the encoder process (the only
invocation failure the code catches), process_image returns the error-status
metric with a populated error message, and the loop continues with the
remaining images; a launch failure is not caught and aborts the run. -/
theorem C6_nonzero_exit_continues (c : ImageCase) (e : ℚ) (s0 exc : String)
    (h : c.inv = InvocationResult.nonzeroExit e s0 exc) :
    process_image c
        = Except.ok (errMetricOf c.image_name c.image_path c.orig_bytes s0 exc)
      ∧ (errMetricOf c.image_name c.image_path c.orig_bytes s0 exc).status
          = Status.error
      ∧ (errMetricOf c.image_name c.image_path c.orig_bytes s0 exc).error.isSome
          = true
      ∧ ∀ cs, runAllC (c :: cs)
          = (Except.map
              (fun l => errMetricOf c.image_name c.image_path c.orig_bytes s0 exc :: l)
              (runAllC cs).1,
             (runAllC cs).2 + 1) := by
  have hp : process_image c
      = Except.ok (errMetricOf c.image_name c.image_path c.orig_bytes s0 exc) := by
    rw [process_image, h, errMetricOf]
  refine ⟨hp, rfl, rfl, ?_⟩
  intro cs
  rw [runAllC, hp]

/-- A concrete non-zero exit. -/
def caseExit1 : ImageCase :=
  { image_name := "c.png"
    image_path := "imgs/c.png"
    orig_bytes := 500
    inv := InvocationResult.nonzeroExit 9 "" "exit status 1"
    outputSize := none }

/-- Witness for the amended claim C6 at a concrete input: the failed image gets
an error metric and the following image is still processed. -/
theorem C6_nonzero_exit_continues_witness :
    caseExit1.inv = InvocationResult.nonzeroExit 9 "" "exit status 1"
      ∧ runAllC [caseExit1, caseOk1000]
          = (Except.map
              (fun l => errMetricOf caseExit1.image_name caseExit1.image_path
                caseExit1.orig_bytes "" "exit status 1" :: l)
              (runAllC [caseOk1000]).1,
             (runAllC [caseOk1000]).2 + 1) :=
  ⟨rfl, (C6_nonzero_exit_continues caseExit1 9 "" "exit status 1" rfl).2.2.2
    [caseOk1000]⟩

/-! ## Configuration checks of main and claim C9 -/

/-- One entry of the input directory listing. -/
structure FileEntry where
  name : String
  isFile : Bool
  icase : ImageCase
deriving DecidableEq

/-- The candidate extensions, compared against the lower-cased path suffix. -/
def image_extensions : List String := [".png", ".jpg", ".jpeg"]

/-- Python str.lower on the ASCII names handled here: per-character lowering. -/
def lowerStr (s : String) : String := String.mk (s.data.map Char.toLower)

/-- The index of the last dot of the name, if any. -/
def lastDotIdx (cs : List Char) : Option Nat :=
  (List.range cs.length).foldl
    (fun acc i => if cs.getD i ' ' = '.' then some i else acc) none

/-- pathlib suffix: the name from its last dot on, provided that dot is neither
the first nor the last character; the empty string otherwise. -/
def pathSuffix (name : String) : String :=
  match lastDotIdx name.data with
  | none => ""
  | some i =>
      if 0 < i ∧ i < name.data.length - 1 then String.mk (name.data.drop i)
      else ""

/-- Code-point lexicographic comparison of two names, as Python compares path
strings. -/
def strLeChars : List Char → List Char → Bool
  | [], _ => true
  | _ :: _, [] => false
  | a :: as, b :: bs =>
      if a.toNat < b.toNat then true
      else if b.toNat < a.toNat then false
      else strLeChars as bs

/-- Insert into a sorted list of entries, keeping earlier equal names first. -/
def insertEntry (x : FileEntry) : List FileEntry → List FileEntry
  | [] => [x]
  | y :: ys =>
      if strLeChars x.name.data y.name.data then x :: y :: ys
      else y :: insertEntry x ys

/-- The candidate image files of main: regular files whose lower-cased suffix is
a known image extension, sorted by name. -/
def candidates (entries : List FileEntry) : List FileEntry :=
  (entries.filter
      (fun f => f.isFile && image_extensions.contains (lowerStr (pathSuffix f.name)))).foldr
    insertEntry []

/-- The observable outcome of a run of main. -/
inductive MainOutcome where
  | exited (code : Nat)
  | completed (results : List FileMetric)
  | crashed (msg : String)
deriving DecidableEq

/-- Embeds the configuration phase and the loop of main: exit 1 when the oavif
binary is missing, when the images directory is missing, or when no candidate
image is found; otherwise run the loop.  The second component counts attempted
encoder invocations. -/
def main_run (oavif_exists : Bool) (images_dir : Option (List FileEntry)) :
    MainOutcome × Nat :=
  if oavif_exists = false then (MainOutcome.exited 1, 0)
  else
    match images_dir with
    | none => (MainOutcome.exited 1, 0)
    | some entries =>
        let files := candidates entries
        if files.isEmpty then (MainOutcome.exited 1, 0)
        else
          match runAllC (files.map (fun f => f.icase)) with
          | (Except.error e, n) => (MainOutcome.crashed e, n)
          | (Except.ok rs, n) => (MainOutcome.completed rs, n)

/-- Claim C9: a missing encoder binary, a missing input directory, or an empty
candidate image set each end the run with exit code 1 and zero attempted
encoder invocations. -/
theorem C9_fail_fast :
    (∀ dir, main_run false dir = (MainOutcome.exited 1, 0))
      ∧ (∀ ex, main_run ex none = (MainOutcome.exited 1, 0))
      ∧ (∀ ex entries, candidates entries = [] →
          main_run ex (some entries) = (MainOutcome.exited 1, 0)) := by
  refine ⟨fun dir => rfl, ?_, ?_⟩
  · intro ex
    cases ex with
    | false => rfl
    | true => rfl
  · intro ex entries h
    cases ex with
    | false => rfl
    | true =>
        rw [main_run]
        simp only [Bool.true_eq_false, if_false, h]
        rfl

/-- Witness for claim C9: a directory whose one entry is not an image file
yields exit code 1 with no invocation attempted. -/
theorem C9_fail_fast_witness :
    candidates [⟨"notes.txt", true, caseOk1000⟩] = []
      ∧ main_run true (some [⟨"notes.txt", true, caseOk1000⟩])
          = (MainOutcome.exited 1, 0) :=
  ⟨rfl, C9_fail_fast.2.2 true [⟨"notes.txt", true, caseOk1000⟩] rfl⟩
